import Mathlib

/-!
Verification of the in-memory ballot store of the Song-Voting backend
(`src/routes/voting.py`).

The embedding models the module-level mutable state (`votes_storage`,
`voted_ips`) as a `VoteState` record, and each Flask handler as an explicit
state-passing function translated line by line from the Python source:

* `submit_vote`   — the POST /vote handler (lines 67-105 of the source);
* `get_votes`     — the GET /votes handler (lines 112-119);
* `check_voted`   — the POST /check-voted handler (lines 125-136);
* `get_analytics` — the GET /analytics handler (lines 190-210).

A vote request carries an optional JSON integer `video_id` (Python's
`if not video_id` treats `None` and `0` as falsy, modelled by `Option Int`
with `none` and `some 0` falsy), a `social_follows` dictionary with three
optional boolean entries (Python's `social_follows.get(platform, False)`
defaults an absent key to `False`), and the hashed client IP, which is an
opaque string here. Python's `round(x, 1)` on percentages is modelled over
`ℚ` by `round1` (round to the nearest tenth).
-/

namespace SongVoting

/-- The `social_follows` dictionary of a vote request: each of the three
platform keys may be absent (`none`) or mapped to a boolean. -/
structure SocialFollows where
  instagram : Option Bool
  linkedin : Option Bool
  twitter : Option Bool
deriving DecidableEq

/-- Dictionary lookup `social_follows.get(platform)`: the value stored under
a platform key, `none` when absent or the key is not one of the three. -/
def SocialFollows.lookup (f : SocialFollows) (platform : String) : Option Bool :=
  if platform = "instagram" then f.instagram
  else if platform = "linkedin" then f.linkedin
  else if platform = "twitter" then f.twitter
  else none

/-- Python's `social_follows.get(platform, False)`: absent defaults to false. -/
def SocialFollows.getD (f : SocialFollows) (platform : String) : Bool :=
  (f.lookup platform).getD false

/-- The fixed list `required_platforms = ['instagram', 'linkedin', 'twitter']`
iterated, in order, by the handler (source line 78). -/
def required_platforms : List String := ["instagram", "linkedin", "twitter"]

/-- The first platform of `required_platforms`, in order, whose flag is falsy
(the platform at which the loop of source lines 79-81 returns), if any. -/
def firstMissing (f : SocialFollows) : Option String :=
  required_platforms.find? (fun p => ! f.getD p)

/-- The module-level mutable state of `voting.py`: the key set and counters of
the `votes_storage` dictionary, and the `voted_ips` set of hashed client IPs. -/
structure VoteState where
  items : Finset Int
  counts : Int → Nat
  votedIps : Finset String

/-- The state at module load: `votes_storage = {1:0, 2:0, 3:0, 4:0, 5:0, 6:0}`
and `voted_ips = set()` (source lines 54-63). -/
def initial_state : VoteState :=
  { items := {1, 2, 3, 4, 5, 6}, counts := fun _ => 0, votedIps := ∅ }

/-- The possible outcomes of the /vote handler: the four error responses
(HTTP 400) and the success response carrying `new_vote_count`. -/
inductive VoteResult where
  | videoRequired
  | missingRequirement (platform : String)
  | alreadyVoted
  | invalidItem
  | success (new_vote_count : Nat)
deriving DecidableEq

/-- Whether a result is the success response. -/
def VoteResult.isSuccess : VoteResult → Bool
  | .success _ => true
  | _ => false

/-- The POST /vote handler (source lines 67-105), as a state transformer.
The checks appear in source order: the falsy `video_id` guard (line 74), the
required-platform loop (lines 78-81), the `voted_ips` membership test
(line 88), the `votes_storage` key test (line 92), and finally the increment
of the item's counter plus the insertion of the IP hash (lines 95-96),
returning the counter's new value (line 104). -/
def submit_vote (st : VoteState) (video_id : Option Int)
    (social_follows : SocialFollows) (ip_hash : String) :
    VoteResult × VoteState :=
  match video_id with
  | none => (.videoRequired, st)
  | some vid =>
    if vid = 0 then (.videoRequired, st)
    else
      match firstMissing social_follows with
      | some platform => (.missingRequirement platform, st)
      | none =>
        if ip_hash ∈ st.votedIps then (.alreadyVoted, st)
        else if vid ∉ st.items then (.invalidItem, st)
        else
          (.success (st.counts vid + 1),
           { st with
             counts := fun i => if i = vid then st.counts vid + 1 else st.counts i,
             votedIps := insert ip_hash st.votedIps })

/-- `sum(votes_storage.values())` (source lines 118 and 193). -/
def total_votes (st : VoteState) : Nat := ∑ i ∈ st.items, st.counts i

/-- The body of the GET /votes response. -/
structure VotesResponse where
  votes : Int → Nat
  response_total : Nat

/-- The GET /votes handler (source lines 112-119): reads the counters and
their sum, mutating nothing. -/
def get_votes (st : VoteState) : VotesResponse × VoteState :=
  ({ votes := st.counts, response_total := total_votes st }, st)

/-- The POST /check-voted handler (source lines 125-136): membership of the
hashed client IP in `voted_ips`, mutating nothing. -/
def check_voted (st : VoteState) (ip_hash : String) : Bool × VoteState :=
  (decide (ip_hash ∈ st.votedIps), st)

/-- Python's `round(x, 1)`: rounding to the nearest tenth, over `ℚ`. -/
def round1 (q : ℚ) : ℚ := (round (q * 10) : ℤ) / 10

/-- The `analytics` object of the GET /analytics response (source
lines 201-210). -/
structure Analytics where
  analytics_total : Nat
  vote_counts : Int → Nat
  vote_percentages : Int → ℚ
  total_participants : Nat
  videos_count : Nat

/-- The GET /analytics handler (source lines 190-210): per-item percentage is
`round(count / total_votes * 100, 1)` when `total_votes > 0` and `0`
otherwise (lines 197-199); `total_participants = len(voted_ips)` (line 207);
nothing is mutated. -/
def get_analytics (st : VoteState) : Analytics × VoteState :=
  ({ analytics_total := total_votes st,
     vote_counts := st.counts,
     vote_percentages := fun i =>
       if 0 < total_votes st then
         round1 ((st.counts i : ℚ) / (total_votes st : ℚ) * 100)
       else 0,
     total_participants := st.votedIps.card,
     videos_count := st.items.card }, st)

/-- A request against the backend: a vote submission or one of the three
read-only endpoints. -/
inductive Op where
  | vote (video_id : Option Int) (social_follows : SocialFollows) (ip_hash : String)
  | votes
  | checkVoted (ip_hash : String)
  | analytics

/-- The state after serving one request. -/
def applyOp (st : VoteState) : Op → VoteState
  | .vote v f h => (submit_vote st v f h).2
  | .votes => (get_votes st).2
  | .checkVoted h => (check_voted st h).2
  | .analytics => (get_analytics st).2

/-- The state after serving a sequence of requests. -/
def runOps (st : VoteState) (ops : List Op) : VoteState :=
  ops.foldl applyOp st

/-- A follows dictionary with every required flag present and true. -/
def all_true_follows : SocialFollows :=
  { instagram := some true, linkedin := some true, twitter := some true }

/-- All three required platform flags are present and true. -/
def allFollowsTrue (f : SocialFollows) : Prop :=
  f.instagram = some true ∧ f.linkedin = some true ∧ f.twitter = some true

/-- A state in which the client with IP hash "a" has already voted. -/
def state_with_voter_a : VoteState :=
  { initial_state with votedIps := {"a"} }

/-- A follows dictionary with all three platform keys absent. -/
def no_follows : SocialFollows :=
  { instagram := none, linkedin := none, twitter := none }

/-- A state that also registers the falsy item id `0`, with one prior voter. -/
def state_with_zero_item : VoteState :=
  { items := insert 0 initial_state.items, counts := fun _ => 0, votedIps := {"a"} }

/-- Case analysis of `submit_vote`: either the request fails and the state is
returned untouched, or the `video_id` is a registered item, the IP hash is
fresh, the result is `success` at the incremented count, and the new state has
exactly that item's counter incremented and the IP hash inserted. -/
lemma submit_vote_cases (st : VoteState) (v : Option Int) (f : SocialFollows) (h : String) :
    ((submit_vote st v f h).2 = st ∧ ((submit_vote st v f h).1).isSuccess = false) ∨
    (∃ vid, v = some vid ∧ vid ∈ st.items ∧ h ∉ st.votedIps ∧
      (submit_vote st v f h).1 = .success (st.counts vid + 1) ∧
      (submit_vote st v f h).2 =
        { st with
          counts := fun i => if i = vid then st.counts vid + 1 else st.counts i,
          votedIps := insert h st.votedIps }) := by
  rcases v with _ | vid
  · exact Or.inl ⟨rfl, rfl⟩
  by_cases h0 : vid = 0
  · left
    constructor <;> simp [submit_vote, h0, VoteResult.isSuccess]
  rcases hfm : firstMissing f with _ | p
  · by_cases hip : h ∈ st.votedIps
    · left
      constructor <;> simp [submit_vote, h0, hfm, hip, VoteResult.isSuccess]
    by_cases hreg : vid ∈ st.items
    · right
      refine ⟨vid, rfl, hreg, hip, ?_, ?_⟩ <;> simp [submit_vote, h0, hfm, hip, hreg]
    · left
      constructor <;> simp [submit_vote, h0, hfm, hip, hreg, VoteResult.isSuccess]
  · left
    constructor <;> simp [submit_vote, h0, hfm, VoteResult.isSuccess]

/-- Serving any request never changes the key set of `votes_storage`. -/
lemma applyOp_items (st : VoteState) (op : Op) : (applyOp st op).items = st.items := by
  cases op with
  | vote v f h =>
    rcases submit_vote_cases st v f h with ⟨he, _⟩ | ⟨vid, _, _, _, _, he⟩ <;>
      simp [applyOp, he]
  | votes => rfl
  | checkVoted h => rfl
  | analytics => rfl

/-- Serving a sequence of requests never changes the key set of
`votes_storage`. -/
lemma runOps_items (ops : List Op) : ∀ st : VoteState, (runOps st ops).items = st.items := by
  induction ops with
  | nil => intro st; rfl
  | cons op ops ih =>
    intro st
    calc (runOps st (op :: ops)).items
        = (runOps (applyOp st op) ops).items := rfl
      _ = (applyOp st op).items := ih _
      _ = st.items := applyOp_items st op

/-- Serving one request preserves the equality between the counter sum and the
number of recorded voters. -/
lemma sum_card_applyOp (st : VoteState) (op : Op)
    (hinv : total_votes st = st.votedIps.card) :
    total_votes (applyOp st op) = (applyOp st op).votedIps.card := by
  cases op with
  | vote v f h =>
    rcases submit_vote_cases st v f h with ⟨he, _⟩ | ⟨vid, _, hreg, hip, _, he⟩
    · show total_votes (submit_vote st v f h).2 = (submit_vote st v f h).2.votedIps.card
      rw [he]
      exact hinv
    · show total_votes (submit_vote st v f h).2 = (submit_vote st v f h).2.votedIps.card
      rw [he]
      show (∑ i ∈ st.items, if i = vid then st.counts vid + 1 else st.counts i)
          = (insert h st.votedIps).card
      rw [Finset.card_insert_of_not_mem hip]
      have hsplit : ∀ i ∈ st.items,
          (if i = vid then st.counts vid + 1 else st.counts i)
            = st.counts i + (if i = vid then 1 else 0) := by
        intro i _
        by_cases hi : i = vid
        · subst hi; simp
        · simp [hi]
      rw [Finset.sum_congr rfl hsplit, Finset.sum_add_distrib,
        Finset.sum_ite_eq' st.items vid (fun _ => 1), if_pos hreg]
      exact congrArg (· + 1) hinv
  | votes => exact hinv
  | checkVoted h => exact hinv
  | analytics => exact hinv

/-- Serving a sequence of requests preserves the equality between the counter
sum and the number of recorded voters. -/
lemma sum_card_runOps (ops : List Op) :
    ∀ st : VoteState, total_votes st = st.votedIps.card →
      total_votes (runOps st ops) = (runOps st ops).votedIps.card := by
  induction ops with
  | nil => intro st h; exact h
  | cons op ops ih =>
    intro st h
    exact ih (applyOp st op) (sum_card_applyOp st op h)

/-- C1: starting from the initial state, after any sequence of requests the
sum of the item counters equals the number of identities in `voted_ips`, and
the analytics report shows `total_votes` equal to `total_participants`. -/
theorem sum_counts_eq_card_votedIps (ops : List Op) :
    total_votes (runOps initial_state ops) = (runOps initial_state ops).votedIps.card ∧
    ((get_analytics (runOps initial_state ops)).1).analytics_total =
      ((get_analytics (runOps initial_state ops)).1).total_participants := by
  have hinit : total_votes initial_state = initial_state.votedIps.card := by decide
  have h := sum_card_runOps ops initial_state hinit
  exact ⟨h, h⟩

/-- C6: every vote submission that does not succeed returns the state
untouched — all counters and the voted-IP set keep their previous values. -/
theorem failed_vote_leaves_state_unchanged (st : VoteState) (v : Option Int)
    (f : SocialFollows) (h : String)
    (hfail : ((submit_vote st v f h).1).isSuccess = false) :
    (submit_vote st v f h).2 = st := by
  rcases submit_vote_cases st v f h with ⟨he, _⟩ | ⟨vid, _, _, _, hres, _⟩
  · exact he
  · rw [hres] at hfail
    simp [VoteResult.isSuccess] at hfail

/-- Witness for C6: submitting a vote for the unregistered item 99 from the
initial state fails and leaves the state unchanged. -/
theorem failed_vote_leaves_state_unchanged_witness :
    ((submit_vote initial_state (some 99) all_true_follows "a").1).isSuccess = false ∧
    (submit_vote initial_state (some 99) all_true_follows "a").2 = initial_state :=
  ⟨by decide, failed_vote_leaves_state_unchanged initial_state (some 99) all_true_follows "a"
    (by decide)⟩

/-- C9: the state only grows — serving any request never removes a voted IP
and never decreases any counter, and the three read-only handlers return the
state exactly as given. -/
theorem state_monotone_and_reads_pure :
    (∀ (st : VoteState) (op : Op),
      st.votedIps ⊆ (applyOp st op).votedIps ∧
      ∀ i : Int, st.counts i ≤ (applyOp st op).counts i) ∧
    (∀ (st : VoteState) (ip_hash : String),
      (get_votes st).2 = st ∧ (check_voted st ip_hash).2 = st ∧
      (get_analytics st).2 = st) := by
  constructor
  · intro st op
    cases op with
    | vote v f h =>
      rcases submit_vote_cases st v f h with ⟨he, _⟩ | ⟨vid, _, _, _, _, he⟩
      · constructor
        · show st.votedIps ⊆ (submit_vote st v f h).2.votedIps
          rw [he]
        · intro i
          show st.counts i ≤ (submit_vote st v f h).2.counts i
          rw [he]
      · constructor
        · show st.votedIps ⊆ (submit_vote st v f h).2.votedIps
          rw [he]
          exact Finset.subset_insert h st.votedIps
        · intro i
          show st.counts i ≤ (submit_vote st v f h).2.counts i
          rw [he]
          show st.counts i ≤ if i = vid then st.counts vid + 1 else st.counts i
          by_cases hi : i = vid
          · subst hi; simp
          · simp [hi]
    | votes => exact ⟨Finset.Subset.refl _, fun i => Nat.le_refl _⟩
    | checkVoted h => exact ⟨Finset.Subset.refl _, fun i => Nat.le_refl _⟩
    | analytics => exact ⟨Finset.Subset.refl _, fun i => Nat.le_refl _⟩
  · intro st ip_hash
    exact ⟨rfl, rfl, rfl⟩

/-- C10: a vote request whose `video_id` is absent or the falsy integer `0` is
rejected with the Video-ID-required error and the state untouched, before the
follow-requirement, deduplication, and item-registration checks run — the
follows dictionary, the IP hash, and the state (even one registering item `0`)
are arbitrary. -/
theorem falsy_video_id_rejected (st : VoteState) (v : Option Int)
    (f : SocialFollows) (ip_hash : String)
    (hv : v = none ∨ v = some 0) :
    submit_vote st v f ip_hash = (.videoRequired, st) := by
  rcases hv with hv | hv <;> subst hv
  · rfl
  · simp [submit_vote]

/-- Witness for C10: a vote for item id `0` is rejected even in a state that
registers `0` as an item, with the requester already recorded as having voted
and no follow flags set. -/
theorem falsy_video_id_rejected_witness :
    (some (0 : Int) = none ∨ some (0 : Int) = some 0) ∧
    submit_vote state_with_zero_item (some 0) no_follows "a" =
      (.videoRequired, state_with_zero_item) :=
  ⟨Or.inr rfl, falsy_video_id_rejected state_with_zero_item (some 0) no_follows "a" (Or.inr rfl)⟩

/-- Whether a result is a missing-follow-requirement error. -/
def VoteResult.isMissing : VoteResult → Bool
  | .missingRequirement _ => true
  | _ => false

/-- When all three flags are present and true the platform loop finds no
unmet requirement. -/
lemma firstMissing_all_true {f : SocialFollows} (hf : allFollowsTrue f) :
    firstMissing f = none := by
  obtain ⟨h1, h2, h3⟩ := hf
  simp [firstMissing, required_platforms, SocialFollows.getD, SocialFollows.lookup, h1, h2, h3]

/-- Every item id registered at startup is nonzero. -/
lemma mem_initial_items_ne_zero {vid : Int} (h : vid ∈ initial_state.items) : vid ≠ 0 := by
  intro h0
  subst h0
  revert h
  decide

/-- C2: in any state reachable from startup, a vote for a registered item with
all three follow flags true from a client not yet recorded succeeds, returns
the item's incremented count, increments exactly that item's counter, and
inserts the client's IP hash into the voted set. -/
theorem cast_vote_success (ops : List Op) (vid : Int) (f : SocialFollows) (ip_hash : String)
    (hreg : vid ∈ (runOps initial_state ops).items)
    (hf : allFollowsTrue f)
    (hip : ip_hash ∉ (runOps initial_state ops).votedIps) :
    (submit_vote (runOps initial_state ops) (some vid) f ip_hash).1 =
      .success ((runOps initial_state ops).counts vid + 1) ∧
    ((submit_vote (runOps initial_state ops) (some vid) f ip_hash).2).counts vid =
      (runOps initial_state ops).counts vid + 1 ∧
    (∀ j : Int, j ≠ vid →
      ((submit_vote (runOps initial_state ops) (some vid) f ip_hash).2).counts j =
        (runOps initial_state ops).counts j) ∧
    ((submit_vote (runOps initial_state ops) (some vid) f ip_hash).2).votedIps =
      insert ip_hash (runOps initial_state ops).votedIps := by
  have h0 : vid ≠ 0 := mem_initial_items_ne_zero (runOps_items ops initial_state ▸ hreg)
  have hfm := firstMissing_all_true hf
  refine ⟨?_, ?_, ?_, ?_⟩
  · simp [submit_vote, h0, hfm, hip, hreg]
  · simp [submit_vote, h0, hfm, hip, hreg]
  · intro j hj
    simp [submit_vote, h0, hfm, hip, hreg, hj]
  · simp [submit_vote, h0, hfm, hip, hreg]

/-- Witness for C2: from the initial state, a first vote for item 3 with all
flags true succeeds with new count 1 and changes exactly what it should. -/
theorem cast_vote_success_witness :
    (3 : Int) ∈ (runOps initial_state []).items ∧
    allFollowsTrue all_true_follows ∧
    "a" ∉ (runOps initial_state []).votedIps ∧
    ((submit_vote (runOps initial_state []) (some 3) all_true_follows "a").1 =
      .success ((runOps initial_state []).counts 3 + 1) ∧
    ((submit_vote (runOps initial_state []) (some 3) all_true_follows "a").2).counts 3 =
      (runOps initial_state []).counts 3 + 1 ∧
    (∀ j : Int, j ≠ 3 →
      ((submit_vote (runOps initial_state []) (some 3) all_true_follows "a").2).counts j =
        (runOps initial_state []).counts j) ∧
    ((submit_vote (runOps initial_state []) (some 3) all_true_follows "a").2).votedIps =
      insert "a" (runOps initial_state []).votedIps) :=
  ⟨by decide, ⟨rfl, rfl, rfl⟩, by decide,
    cast_vote_success [] 3 all_true_follows "a" (by decide) ⟨rfl, rfl, rfl⟩ (by decide)⟩

/-- Counterexample to C4 as stated: the item id 99 is unregistered, yet with a
false instagram flag the handler reports the missing follow requirement, and
with the client already recorded it reports the duplicate vote — in neither
case the invalid-item error, so InvalidItem is not returned regardless of the
flags and of voted-set membership. -/
theorem invalid_item_counterexample :
    ((99 : Int) ∉ initial_state.items ∧
      (submit_vote initial_state (some 99)
        { instagram := some false, linkedin := some true, twitter := some true } "a").1 =
        .missingRequirement "instagram" ∧
      VoteResult.missingRequirement "instagram" ≠ .invalidItem) ∧
    ((99 : Int) ∉ state_with_voter_a.items ∧
      "a" ∈ state_with_voter_a.votedIps ∧
      (submit_vote state_with_voter_a (some 99) all_true_follows "a").1 = .alreadyVoted ∧
      VoteResult.alreadyVoted ≠ .invalidItem) := by
  decide

/-- C4 as amended: a vote for a nonzero unregistered item id fails with the
invalid-item error and leaves the state untouched, provided all three follow
flags are true and the client has not voted yet (the follow and duplicate
checks run first in the handler). -/
theorem invalid_item_rejected (st : VoteState) (vid : Int) (f : SocialFollows)
    (ip_hash : String) (h0 : vid ≠ 0) (hreg : vid ∉ st.items)
    (hf : allFollowsTrue f) (hip : ip_hash ∉ st.votedIps) :
    submit_vote st (some vid) f ip_hash = (.invalidItem, st) := by
  have hfm := firstMissing_all_true hf
  simp [submit_vote, h0, hfm, hip, hreg]

/-- Witness for C4 as amended: voting for item 99 from the initial state with
all flags true fails with the invalid-item error. -/
theorem invalid_item_rejected_witness :
    ((99 : Int) ≠ 0 ∧ (99 : Int) ∉ initial_state.items ∧
      allFollowsTrue all_true_follows ∧ "a" ∉ initial_state.votedIps) ∧
    submit_vote initial_state (some 99) all_true_follows "a" = (.invalidItem, initial_state) :=
  ⟨⟨by decide, by decide, ⟨rfl, rfl, rfl⟩, by decide⟩,
    invalid_item_rejected initial_state 99 all_true_follows "a" (by decide) (by decide)
      ⟨rfl, rfl, rfl⟩ (by decide)⟩

/-- Counterexample to C5 as stated: with `video_id` absent and the instagram
flag false, the handler answers with the Video-ID-required error, not with any
missing-requirement error. -/
theorem missing_requirement_counterexample :
    ({ instagram := some false, linkedin := some true, twitter := some true } :
        SocialFollows).instagram ≠ some true ∧
    (submit_vote initial_state none
      { instagram := some false, linkedin := some true, twitter := some true } "a").1 =
      .videoRequired ∧
    ((submit_vote initial_state none
      { instagram := some false, linkedin := some true, twitter := some true } "a").1).isMissing
      = false := by
  decide

/-- C5 as amended: provided the `video_id` is present and nonzero, a vote in
which some required platform flag is not `true` (false or absent alike) fails
with the missing-requirement error naming the first unmet platform in the
fixed order instagram, linkedin, twitter. -/
theorem missing_requirement_first_unmet (st : VoteState) (vid : Int) (f : SocialFollows)
    (ip_hash : String) (h0 : vid ≠ 0)
    (hf : f.instagram ≠ some true ∨ f.linkedin ≠ some true ∨ f.twitter ≠ some true) :
    (submit_vote st (some vid) f ip_hash).1 =
      .missingRequirement
        (if f.instagram ≠ some true then "instagram"
         else if f.linkedin ≠ some true then "linkedin"
         else "twitter") := by
  obtain ⟨ig, li, tw⟩ := f
  rcases ig with _ | (_ | _) <;> rcases li with _ | (_ | _) <;> rcases tw with _ | (_ | _) <;>
    simp_all [submit_vote, firstMissing, required_platforms, SocialFollows.getD,
      SocialFollows.lookup]

/-- Witness for C5 as amended: with instagram true but linkedin false, voting
for item 5 fails naming linkedin, the first unmet platform. -/
theorem missing_requirement_first_unmet_witness :
    ((5 : Int) ≠ 0 ∧
      (all_true_follows.instagram ≠ some true ∨
        ({ instagram := some true, linkedin := some false, twitter := none } :
          SocialFollows).linkedin ≠ some true ∨
        all_true_follows.twitter ≠ some true)) ∧
    (submit_vote initial_state (some 5)
      { instagram := some true, linkedin := some false, twitter := none } "a").1 =
      .missingRequirement
        (if ({ instagram := some true, linkedin := some false, twitter := none } :
            SocialFollows).instagram ≠ some true then "instagram"
         else if ({ instagram := some true, linkedin := some false, twitter := none } :
            SocialFollows).linkedin ≠ some true then "linkedin"
         else "twitter") :=
  ⟨⟨by decide, Or.inr (Or.inl (by decide))⟩,
    missing_requirement_first_unmet initial_state 5
      { instagram := some true, linkedin := some false, twitter := none } "a" (by decide)
      (Or.inr (Or.inl (by decide)))⟩

/-- Counterexample to C7 as stated: a client already recorded in the voted set
who submits a vote with all flags true but the falsy item id 0 receives the
Video-ID-required error, not the already-voted error. -/
theorem already_voted_counterexample :
    "a" ∈ state_with_voter_a.votedIps ∧
    allFollowsTrue all_true_follows ∧
    (submit_vote state_with_voter_a (some 0) all_true_follows "a").1 = .videoRequired ∧
    VoteResult.videoRequired ≠ .alreadyVoted :=
  ⟨by decide, ⟨rfl, rfl, rfl⟩, by decide, by decide⟩

/-- C7 as amended: a client already recorded in the voted set who submits a
vote with all flags true and any nonzero item id — registered or not — fails
with the already-voted error and the state untouched. -/
theorem already_voted_rejected (st : VoteState) (vid : Int) (f : SocialFollows)
    (ip_hash : String) (h0 : vid ≠ 0) (hf : allFollowsTrue f)
    (hip : ip_hash ∈ st.votedIps) :
    submit_vote st (some vid) f ip_hash = (.alreadyVoted, st) := by
  have hfm := firstMissing_all_true hf
  simp [submit_vote, h0, hfm, hip]

/-- Witness for C7 as amended: the recorded client "a" voting again for the
unregistered item 99 with all flags true gets the already-voted error. -/
theorem already_voted_rejected_witness :
    ((99 : Int) ≠ 0 ∧ allFollowsTrue all_true_follows ∧
      "a" ∈ state_with_voter_a.votedIps) ∧
    submit_vote state_with_voter_a (some 99) all_true_follows "a" =
      (.alreadyVoted, state_with_voter_a) :=
  ⟨⟨by decide, ⟨rfl, rfl, rfl⟩, by decide⟩,
    already_voted_rejected state_with_voter_a 99 all_true_follows "a" (by decide)
      ⟨rfl, rfl, rfl⟩ (by decide)⟩

/-- A registered item's count never exceeds the counter sum. -/
lemma counts_le_total {st : VoteState} {i : Int} (hi : i ∈ st.items) :
    st.counts i ≤ total_votes st :=
  Finset.single_le_sum (fun _ _ => Nat.zero_le _) hi

/-- Rounding to the nearest tenth preserves nonnegativity. -/
lemma round1_nonneg {q : ℚ} (hq : 0 ≤ q) : 0 ≤ round1 q := by
  unfold round1
  apply div_nonneg _ (by norm_num)
  have h : (0 : ℤ) ≤ round (q * 10) := by
    rw [round_eq]
    apply Int.floor_nonneg.mpr
    linarith
  exact_mod_cast h

/-- Rounding to the nearest tenth preserves the bound 100. -/
lemma round1_le_hundred {q : ℚ} (hq : q ≤ 100) : round1 q ≤ 100 := by
  unfold round1
  rw [div_le_iff₀ (by norm_num : (0 : ℚ) < 10)]
  have h : round (q * 10) < (1001 : ℤ) := by
    rw [round_eq]
    apply Int.floor_lt.mpr
    push_cast
    linarith
  have h2 : round (q * 10) ≤ (1000 : ℤ) := by omega
  have h3 : ((round (q * 10) : ℤ) : ℚ) ≤ 1000 := by exact_mod_cast h2
  linarith

/-- C8: for a registered item, the analytics percentage is 0 whenever the
counter sum is zero, otherwise it is the item's count divided by the total,
times 100, rounded to one decimal; in all cases it lies between 0 and 100. -/
theorem analytics_percentages_sound (st : VoteState) (i : Int) (hi : i ∈ st.items) :
    (total_votes st = 0 → ((get_analytics st).1).vote_percentages i = 0) ∧
    (0 < total_votes st →
      ((get_analytics st).1).vote_percentages i =
        round1 ((st.counts i : ℚ) / (total_votes st : ℚ) * 100)) ∧
    0 ≤ ((get_analytics st).1).vote_percentages i ∧
    ((get_analytics st).1).vote_percentages i ≤ 100 := by
  have hle := counts_le_total hi
  by_cases h : 0 < total_votes st
  · have hT : (0 : ℚ) < (total_votes st : ℚ) := by exact_mod_cast h
    have hq0 : (0 : ℚ) ≤ (st.counts i : ℚ) / (total_votes st : ℚ) * 100 := by positivity
    have hq1 : (st.counts i : ℚ) / (total_votes st : ℚ) * 100 ≤ 100 := by
      have hub : (st.counts i : ℚ) / (total_votes st : ℚ) ≤ 1 := by
        rw [div_le_one hT]
        exact_mod_cast hle
      nlinarith
    refine ⟨fun h0 => by omega, fun _ => ?_, ?_, ?_⟩
    · simp [get_analytics, h]
    · have := round1_nonneg hq0
      simpa [get_analytics, h] using this
    · have := round1_le_hundred hq1
      simpa [get_analytics, h] using this
  · have h0 : total_votes st = 0 := by omega
    refine ⟨fun _ => ?_, fun hpos => absurd hpos h, ?_, ?_⟩ <;>
      simp [get_analytics, h0]

/-- Witness for C8: in the initial state the total is zero and item 3 is
reported at percentage 0, within bounds. -/
theorem analytics_percentages_sound_witness :
    (3 : Int) ∈ initial_state.items ∧
    ((total_votes initial_state = 0 →
        ((get_analytics initial_state).1).vote_percentages 3 = 0) ∧
      (0 < total_votes initial_state →
        ((get_analytics initial_state).1).vote_percentages 3 =
          round1 ((initial_state.counts 3 : ℚ) / (total_votes initial_state : ℚ) * 100)) ∧
      0 ≤ ((get_analytics initial_state).1).vote_percentages 3 ∧
      ((get_analytics initial_state).1).vote_percentages 3 ≤ 100) :=
  ⟨by decide, analytics_percentages_sound initial_state 3 (by decide)⟩

end SongVoting
